import Mathlib

/-!
Verification of `src/theme/make-sprite.py`, the sprite-sheet generator.

The script builds an SVG document with `xml.etree.ElementTree` and writes
`ET.tostring(svg)` to a binary sink.  We embed the XML element trees the
script constructs, the exact attribute lists it passes to `ET.Element` /
`ET.SubElement` (attribute insertion order is preserved by ElementTree on
Python 3.8+), and the serializer behaviour of `ET.tostring` with its default
`us-ascii` encoding (short empty elements, attribute-value escaping, and no
XML declaration, which ElementTree only emits for encodings other than
us-ascii / utf-8 / unicode).

The script's external collaborators are modelled as parameters:
`S` stands for `chess.svg.SQUARE_SIZE` (the glyph provider's native cell
size), `pieces` for the parsed fragments `ET.fromstring(g)` for
`g in chess.svg.PIECES.values()`, `gradient` for the parsed
`chess.svg.CHECK_GRADIENT`, and `names` for the lookup
`chess.PIECE_NAMES[i]`.  The elements the script itself creates carry no
text content, so text nodes are not modelled.
-/

/-- An XML element: tag, attribute list (in insertion order), children. -/
inductive Xml : Type where
  | elem : String → List (String × String) → List Xml → Xml

instance : Inhabited Xml := ⟨Xml.elem "" [] []⟩

def Xml.tag : Xml → String
  | .elem t _ _ => t

def Xml.attrList : Xml → List (String × String)
  | .elem _ a _ => a

def Xml.children : Xml → List Xml
  | .elem _ _ c => c

/-- The palette `COLORS` of the script (9 entries). -/
def COLORS : List String :=
  ["#dee3e6", "#8ca2ad", "#ced26b", "#aaa23b", "#262421",
   "#bababa", "#bf811d", "#b72fc6", "#706f6e"]

/-- `COLOR_WIDTH = SQUARE_SIZE * 2 // 3`, with the cell size as parameter. -/
def COLOR_WIDTH (S : Nat) : Nat := S * 2 / 3

/-- One colour-swatch rectangle, as emitted by the `enumerate(COLORS[4:])`
loop of the script. -/
def swatchRect (S x : Nat) (color : String) : Xml :=
  Xml.elem "rect"
    [("x", toString (S * 4 + COLOR_WIDTH S * x)),
     ("y", "0"),
     ("width", toString (COLOR_WIDTH S)),
     ("height", toString S),
     ("stroke", "none"),
     ("fill", color)] []

/-- The per-column background rectangle of the script. -/
def bgRect (S x : Nat) : Xml :=
  Xml.elem "rect"
    [("x", toString (S * x)),
     ("y", toString (if x ≥ 4 then S else 0)),
     ("width", toString S),
     ("height", toString (S * (if x ≥ 4 then 7 else 8))),
     ("stroke", "none"),
     ("fill", COLORS.getD (x % 4) "")] []

/-- The gradient-filled rectangle emitted inside the row loop when `y == 7`. -/
def checkRect (S x y : Nat) : Xml :=
  Xml.elem "rect"
    [("x", toString (S * x)),
     ("y", toString (S * y)),
     ("width", toString S),
     ("height", toString S),
     ("fill", "url(#check_gradient)")] []

/-- The glyph reference emitted for each grid cell:
`piece_type = min(y, 6)`, `color = "white" if x >= 4 else "black"`,
`xlink:href = f"#{color}-{chess.PIECE_NAMES[piece_type]}"`, and the
translation transform. -/
def pieceUse (names : Nat → String) (S x y : Nat) : Xml :=
  Xml.elem "use"
    [("xlink:href",
       "#" ++ (if x ≥ 4 then "white" else "black") ++ "-" ++ names (min y 6)),
     ("transform",
       "translate(" ++ toString (S * x) ++ ", " ++ toString (S * y) ++ ")")] []

/-- The nodes appended for one column `x`: the background rectangle, then for
each `y in range(1, 8)` the optional `y == 7` gradient rectangle followed by
the glyph reference. -/
def columnNodes (names : Nat → String) (S x : Nat) : List Xml :=
  bgRect S x ::
    (List.range' 1 7).flatMap (fun y =>
      (if y = 7 then [checkRect S x y] else []) ++ [pieceUse names S x y])

/-- The attribute list passed to `ET.Element("svg", {...})`. -/
def svgAttrs (S : Nat) : List (String × String) :=
  [("xmlns", "http://www.w3.org/2000/svg"),
   ("version", "1.1"),
   ("xmlns:xlink", "http://www.w3.org/1999/xlink"),
   ("viewBox", "0 0 " ++ toString (S * 8) ++ " " ++ toString (S * 8))]

/-- The children appended to the root after the `defs` node: the five colour
swatches, then the eight column groups. -/
def spriteBody (names : Nat → String) (S : Nat) : List Xml :=
  (COLORS.drop 4).enum.map (fun q => swatchRect S q.1 q.2) ++
    (List.range 8).flatMap (columnNodes names S)

/-- The document built by `make_sprite`: the root `svg` element, whose first
child is the `defs` node holding every glyph fragment followed by the check
gradient, then the swatches and the eight columns. -/
def make_sprite (S : Nat) (pieces : List Xml) (gradient : Xml)
    (names : Nat → String) : Xml :=
  Xml.elem "svg" (svgAttrs S)
    (Xml.elem "defs" [] (pieces ++ [gradient]) :: spriteBody names S)

/-- One character of attribute-value escaping, as performed by ElementTree
when serializing attribute values. -/
def escAttrChar (c : Char) : String :=
  if c = '&' then "&amp;"
  else if c = '<' then "&lt;"
  else if c = '>' then "&gt;"
  else if c = '\"' then "&quot;"
  else if c = '\r' then "&#13;"
  else if c = '\n' then "&#10;"
  else if c = '\t' then "&#09;"
  else String.singleton c

def escAttr (s : String) : String := String.join (s.data.map escAttrChar)

/-- Attribute serialization: ` key="value"` for each attribute, in insertion
order. -/
def attrsString (l : List (String × String)) : String :=
  l.foldl (fun acc kv => acc ++ " " ++ kv.1 ++ "=\"" ++ escAttr kv.2 ++ "\"") ""

mutual

/-- Serialization of an element, as produced by `ET.tostring` with its
default `us-ascii` encoding: no XML declaration, short form `<t a="v" />`
for childless elements, `<t a="v">...</t>` otherwise. -/
def serialize : Xml → String
  | Xml.elem t a [] => "<" ++ t ++ attrsString a ++ " />"
  | Xml.elem t a (c :: cs) =>
      "<" ++ t ++ attrsString a ++ ">" ++ serialize c ++ serializeList cs ++
        "</" ++ t ++ ">"

def serializeList : List Xml → String
  | [] => ""
  | c :: cs => serialize c ++ serializeList cs

end

/-! Observers used to state the claims. -/

/-- Attribute lookup (first binding wins, as in an ElementTree dict). -/
def attr (e : Xml) (k : String) : Option String :=
  (e.attrList.find? (fun kv => kv.1 == k)).map (fun kv => kv.2)

/-- Direct children of the document root that are `rect` elements. -/
def rectChildren (doc : Xml) : List Xml :=
  doc.children.filter (fun c => c.tag == "rect")

/-- Direct children of the document root that are `use` elements. -/
def useChildren (doc : Xml) : List Xml :=
  doc.children.filter (fun c => c.tag == "use")

/-- The root-level rectangles filled with the check-gradient reference. -/
def gradRects (doc : Xml) : List Xml :=
  (rectChildren doc).filter (fun r => attr r "fill" == some "url(#check_gradient)")

/-- The root-level rectangles filled with one of the four square colours,
i.e. the column backgrounds. -/
def bgRects (doc : Xml) : List Xml :=
  (rectChildren doc).filter (fun r => (COLORS.take 4).contains ((attr r "fill").getD ""))

/-- The root-level rectangles filled with one of the five accent colours,
i.e. the colour swatches. -/
def swatchRects (doc : Xml) : List Xml :=
  (rectChildren doc).filter (fun r => (COLORS.drop 4).contains ((attr r "fill").getD ""))

/-- The content of the document's `defs` block. -/
def defsContent (doc : Xml) : List Xml :=
  ((doc.children.filter (fun c => c.tag == "defs")).getD 0 default).children

/-- Drop the leading `#` of an `xlink:href` value. -/
def stripHash (s : String) : String := String.mk (s.data.drop 1)

/-- The identifiers referenced by the document's glyph references. -/
def hrefIds (doc : Xml) : List String :=
  (useChildren doc).filterMap (fun u => (attr u "xlink:href").map stripHash)

/-- Parse one decimal digit. -/
def digitVal (c : Char) : Option Nat :=
  if '0' ≤ c ∧ c ≤ '9' then some (c.toNat - '0'.toNat) else none

def natFromChars : List Char → Option Nat → Option Nat
  | [], acc => acc
  | c :: cs, acc =>
      match acc, digitVal c with
      | some n, some d => natFromChars cs (some (n * 10 + d))
      | _, _ => natFromChars cs none

/-- Parse a nonempty all-digit string as a natural number. -/
def parseNat (s : String) : Option Nat :=
  match s.data with
  | [] => none
  | _ => natFromChars s.data (some 0)

/-- The geometry `(x, y, width, height)` of a rectangle element, read back
from its attributes. -/
def rectGeom (e : Xml) : Option (Nat × Nat × Nat × Nat) :=
  match (attr e "x").bind parseNat, (attr e "y").bind parseNat,
      (attr e "width").bind parseNat, (attr e "height").bind parseNat with
  | some a, some b, some w, some h => some (a, b, w, h)
  | _, _, _, _ => none

/-- Two axis-aligned rectangles share interior area. -/
def overlapsB : Nat × Nat × Nat × Nat → Nat × Nat × Nat × Nat → Bool
  | (x1, y1, w1, h1), (x2, y2, w2, h2) =>
      decide (x1 < x2 + w2) && decide (x2 < x1 + w1) &&
        decide (y1 < y2 + h2) && decide (y2 < y1 + h1)

def rectOverlapB (e1 e2 : Xml) : Bool :=
  match rectGeom e1, rectGeom e2 with
  | some g1, some g2 => overlapsB g1 g2
  | _, _ => false

/-- All index pairs `i < j` of rectangles in `rs` that overlap. -/
def overlappingPairs (rs : List Xml) : List (Nat × Nat) :=
  (List.range rs.length).flatMap (fun i =>
    ((List.range rs.length).filter (fun j =>
        decide (i < j) && rectOverlapB (rs.getD i default) (rs.getD j default))).map
      (fun j => (i, j)))

/-! Concrete instantiation of the external collaborators, used for witnesses
and counterexamples. -/

/-- Modelled from the spec: the Piece Naming Table (`chess.PIECE_NAMES`), a
fixed list of the six canonical piece-type names indexable by ordinal 1–6;
index 0 is an unused placeholder. -/
def PIECE_NAMES : List String :=
  ["", "pawn", "knight", "bishop", "rook", "queen", "king"]

def pieceName (i : Nat) : String := PIECE_NAMES.getD i ""

/-- Modelled from the spec: the Piece Glyph Provider's twelve fragments
(`chess.svg.PIECES`), each carrying the stable identifier
`{color}-{piece_name}`. -/
def demoPieces : List Xml :=
  ["white", "black"].flatMap (fun c =>
    (PIECE_NAMES.drop 1).map (fun n => Xml.elem "g" [("id", c ++ "-" ++ n)] []))

/-- Modelled from the spec: the gradient fragment
(`chess.svg.CHECK_GRADIENT`), identifiable as `check_gradient`. -/
def demoGradient : Xml :=
  Xml.elem "radialGradient" [("id", "check_gradient")] []

/-- The document for the provider's actual cell size `SQUARE_SIZE = 45`. -/
def sprite45 : Xml := make_sprite 45 demoPieces demoGradient pieceName

/-! Helper lemmas. -/

theorem string_data_append (a b : String) : (a ++ b).data = a.data ++ b.data := rfl

theorem serialize_cons_eq (t : String) (a : List (String × String)) (c : Xml)
    (cs : List Xml) :
    serialize (Xml.elem t a (c :: cs)) =
      "<" ++ t ++ attrsString a ++ ">" ++ serialize c ++ serializeList cs ++
        "</" ++ t ++ ">" := rfl

theorem hrefIds_shape (S : Nat) (p : List Xml) (g : Xml) :
    ∀ i ∈ hrefIds (make_sprite S p g pieceName),
      ∃ c ∈ ["white", "black"], ∃ n ∈ PIECE_NAMES.drop 1, i = c ++ "-" ++ n :=
  of_decide_eq_true rfl

/-! The claims. -/

/-- C1 (counterexample): the claim says exactly one gradient-overlay
rectangle exists, at grid cell (6, 7).  In fact the script's `if y == 7`
branch runs in every column, so the document holds eight such rectangles,
and the first of them sits at column 0 (`x="0"`), not column 6. -/
theorem gradient_overlay_count_is_eight :
    (gradRects sprite45).length = 8 ∧ ¬ (gradRects sprite45).length = 1 ∧
    attr ((gradRects sprite45).getD 0 default) "x" = some "0" := by decide

/-- C1 (amended): the root-level rectangles filled with
`url(#check_gradient)` are exactly one per column `x ∈ 0..7`, each at
position `(x*S, 7*S)` with width and height `S`; no other cell receives an
overlay rectangle. -/
theorem gradient_overlay_one_per_column (S : Nat) (p : List Xml) (g : Xml)
    (nm : Nat → String) :
    gradRects (make_sprite S p g nm) =
      (List.range 8).map (fun x =>
        Xml.elem "rect"
          [("x", toString (S * x)), ("y", toString (S * 7)),
           ("width", toString S), ("height", toString S),
           ("fill", "url(#check_gradient)")] []) := rfl

set_option maxRecDepth 100000 in
/-- C2 (counterexample): the claim says the written bytes begin with an XML
declaration before the root `svg` element.  `ET.tostring` with its default
us-ascii encoding emits no declaration: the first five bytes of the output
are `<svg `, not `<?xml`. -/
theorem serialized_bytes_lack_xml_declaration :
    (serialize sprite45).data.take 5 ≠ "<?xml".data ∧
    (serialize sprite45).data.take 5 = "<svg ".data := by
  constructor
  · decide
  · decide

/-- C2 (amended): the byte stream written to the sink is the serialization
of the completed document tree, and it begins directly with the root `svg`
element (no XML declaration precedes it). -/
theorem serialized_bytes_begin_with_svg_root (S : Nat) (p : List Xml) (g : Xml)
    (nm : Nat → String) :
    ∃ rest, (serialize (make_sprite S p g nm)).data = "<svg".data ++ rest := by
  have h : serialize (make_sprite S p g nm) =
      "<" ++ "svg" ++ attrsString (svgAttrs S) ++ ">" ++
        serialize (Xml.elem "defs" [] (p ++ [g])) ++
        serializeList (spriteBody nm S) ++ "</" ++ "svg" ++ ">" :=
    serialize_cons_eq "svg" (svgAttrs S) (Xml.elem "defs" [] (p ++ [g])) (spriteBody nm S)
  refine ⟨(attrsString (svgAttrs S)).data ++ ">".data ++
    (serialize (Xml.elem "defs" [] (p ++ [g]))).data ++
    (serializeList (spriteBody nm S)).data ++ "</".data ++ "svg".data ++ ">".data, ?_⟩
  rw [h]
  simp only [string_data_append, List.append_assoc]
  exact rfl

/-- C3 (counterexample): the claim allows overlapping area only for the
single documented overlay at column 6.  The rectangle at index 5 of the
document's rectangle list (column 0's background, geometry (0,0,45,360))
and the one at index 6 (column 0's gradient overlay, geometry
(0,315,45,45)) also overlap. -/
theorem column_zero_overlay_overlaps_its_background :
    rectOverlapB ((rectChildren sprite45).getD 5 default)
        ((rectChildren sprite45).getD 6 default) = true ∧
    rectGeom ((rectChildren sprite45).getD 5 default) = some (0, 0, 45, 360) ∧
    rectGeom ((rectChildren sprite45).getD 6 default) = some (0, 315, 45, 45) ∧
    attr ((rectChildren sprite45).getD 6 default) "fill" =
      some "url(#check_gradient)" := by
  decide

/-- C3 (amended): among the 21 root-level rectangles of the document (in
document order: 5 swatches, then per column its background at index `5+2x`
and its gradient overlay at index `6+2x`), the overlapping pairs are exactly
the eight (background, same-column gradient overlay) pairs; every other
pair is disjoint.  In each overlapping pair the second rectangle is
gradient-filled, the first is a stroke-free background, and both share
their x position. -/
theorem overlapping_pairs_are_exactly_column_overlays :
    overlappingPairs (rectChildren sprite45) =
      [(5, 6), (7, 8), (9, 10), (11, 12), (13, 14), (15, 16), (17, 18), (19, 20)] ∧
    (∀ q ∈ overlappingPairs (rectChildren sprite45),
      attr ((rectChildren sprite45).getD q.2 default) "fill" =
          some "url(#check_gradient)" ∧
      attr ((rectChildren sprite45).getD q.1 default) "stroke" = some "none" ∧
      attr ((rectChildren sprite45).getD q.1 default) "x" =
        attr ((rectChildren sprite45).getD q.2 default) "x") := by
  constructor
  · decide
  · decide

/-- C4: the glyph references of the document are exactly one per column
`x ∈ 0..7` and row `y ∈ 1..7`, in that order, with href
`#{white if x ≥ 4 else black}-{names (min y 6)}` and transform
`translate(x*S, y*S)`; and since `min 7 6 = min 6 6`, the row-7 href of any
column coincides with its row-6 href (the king duplicated). -/
theorem glyph_refs_cover_grid_with_king_duplicated (S : Nat) (p : List Xml)
    (g : Xml) (nm : Nat → String) :
    useChildren (make_sprite S p g nm) =
      (List.range 8).flatMap (fun x =>
        (List.range' 1 7).map (fun y =>
          Xml.elem "use"
            [("xlink:href",
               "#" ++ (if x ≥ 4 then "white" else "black") ++ "-" ++ nm (min y 6)),
             ("transform",
               "translate(" ++ toString (S * x) ++ ", " ++ toString (S * y) ++ ")")] [])) ∧
    (∀ x, "#" ++ (if x ≥ 4 then "white" else "black") ++ "-" ++ nm (min 7 6) =
       "#" ++ (if x ≥ 4 then "white" else "black") ++ "-" ++ nm (min 6 6)) :=
  ⟨rfl, fun _ => rfl⟩

/-- C5: provided the glyph fragments carry the identifiers
`{color}-{piece_name}` for all 12 pairs and the gradient fragment carries
`check_gradient`, the document contains a glyph reference for each of the
12 identifiers, every identifier referenced by a glyph reference resolves
to a definition in the defs block, the gradient identifier resolves there
too, and the defs block holds exactly the 12 fragments plus the gradient. -/
theorem glyph_refs_resolve_in_defs (S : Nat) (pieces : List Xml) (gradient : Xml)
    (h1 : ∀ c ∈ ["white", "black"], ∀ n ∈ PIECE_NAMES.drop 1,
      ∃ d ∈ pieces, attr d "id" = some (c ++ "-" ++ n))
    (h2 : attr gradient "id" = some "check_gradient") :
    (∀ c ∈ ["white", "black"], ∀ n ∈ PIECE_NAMES.drop 1,
      ∃ u ∈ useChildren (make_sprite S pieces gradient pieceName),
        attr u "xlink:href" = some ("#" ++ (c ++ "-" ++ n))) ∧
    (∀ i ∈ hrefIds (make_sprite S pieces gradient pieceName),
      ∃ d ∈ defsContent (make_sprite S pieces gradient pieceName),
        attr d "id" = some i) ∧
    (∃ d ∈ defsContent (make_sprite S pieces gradient pieceName),
      attr d "id" = some "check_gradient") ∧
    defsContent (make_sprite S pieces gradient pieceName) = pieces ++ [gradient] := by
  refine ⟨of_decide_eq_true rfl, ?_,
    ⟨gradient, List.mem_append_right pieces (List.mem_singleton_self gradient), h2⟩, rfl⟩
  intro i hi
  obtain ⟨c, hc, n, hn, rfl⟩ := hrefIds_shape S pieces gradient i hi
  obtain ⟨d, hd, hid⟩ := h1 c hc n hn
  exact ⟨d, List.mem_append_left [gradient] hd, hid⟩

/-- C5 (witness): the hypotheses hold for the modelled provider, and every
referenced identifier resolves in the defs block of the concrete document. -/
theorem glyph_refs_resolve_in_defs_witness :
    (attr demoGradient "id" = some "check_gradient") ∧
    (∀ i ∈ hrefIds (make_sprite 45 demoPieces demoGradient pieceName),
      ∃ d ∈ defsContent (make_sprite 45 demoPieces demoGradient pieceName),
        attr d "id" = some i) :=
  ⟨by decide, (glyph_refs_resolve_in_defs 45 demoPieces demoGradient
    (by decide) (by decide)).2.1⟩

/-- C6: the column backgrounds are exactly one rectangle per column
`x ∈ 0..7` at `x = S*x` with width `S` and fill `COLORS[x % 4]`; columns
0–3 have `y = 0` and height `8*S`, columns 4–7 have `y = S` and height
`7*S`. -/
theorem background_rects_per_column (S : Nat) (p : List Xml) (g : Xml)
    (nm : Nat → String) :
    bgRects (make_sprite S p g nm) =
      (List.range 4).map (fun x =>
        Xml.elem "rect"
          [("x", toString (S * x)),
           ("y", "0"),
           ("width", toString S),
           ("height", toString (S * 8)),
           ("stroke", "none"),
           ("fill", COLORS.getD (x % 4) "")] []) ++
      (List.range' 4 4).map (fun x =>
        Xml.elem "rect"
          [("x", toString (S * x)),
           ("y", toString S),
           ("width", toString S),
           ("height", toString (S * 7)),
           ("stroke", "none"),
           ("fill", COLORS.getD (x % 4) "")] []) := by
  with_unfolding_all rfl

/-- C7: exactly five colour-swatch rectangles are emitted, filled with the
palette colours at indices 4–8 in order, each `S*2/3` wide and `S` tall at
`y = 0`, placed contiguously from `x = 4*S`; for `S = 45` the first swatch
is at x=180, y=0, width=30, height=45 with the palette's 5th colour. -/
theorem swatch_rects_layout (S : Nat) (p : List Xml) (g : Xml)
    (nm : Nat → String) :
    swatchRects (make_sprite S p g nm) =
      (List.range 5).map (fun i =>
        Xml.elem "rect"
          [("x", toString (S * 4 + S * 2 / 3 * i)),
           ("y", "0"),
           ("width", toString (S * 2 / 3)),
           ("height", toString S),
           ("stroke", "none"),
           ("fill", COLORS.getD (4 + i) "")] []) ∧
    attr ((swatchRects sprite45).getD 0 default) "x" = some "180" ∧
    attr ((swatchRects sprite45).getD 0 default) "y" = some "0" ∧
    attr ((swatchRects sprite45).getD 0 default) "width" = some "30" ∧
    attr ((swatchRects sprite45).getD 0 default) "height" = some "45" ∧
    attr ((swatchRects sprite45).getD 0 default) "fill" = some "#262421" := by
  refine ⟨by with_unfolding_all rfl, by decide, by decide, by decide, by decide, by decide⟩

/-- C8: the root element's viewBox attribute is `0 0 {8*S} {8*S}`; for
`S = 45` it is `0 0 360 360`. -/
theorem root_viewBox_value (S : Nat) (p : List Xml) (g : Xml)
    (nm : Nat → String) :
    attr (make_sprite S p g nm) "viewBox" =
      some ("0 0 " ++ toString (8 * S) ++ " " ++ toString (8 * S)) ∧
    attr sprite45 "viewBox" = some "0 0 360 360" := by
  constructor
  · rw [Nat.mul_comm 8 S]; rfl
  · with_unfolding_all rfl

/-- C9: for every column `x < 8` — exactly the cells `(x, 7)` that receive a
gradient-overlay rectangle — the overlay appears at an earlier root-child
index than the glyph reference for that same cell, so the glyph is painted
on top of the gradient. -/
theorem overlay_precedes_glyph_in_document_order (S : Nat) (p : List Xml)
    (g : Xml) (nm : Nat → String) (x : Nat) (hx : x < 8) :
    ∃ i j, i < j ∧
      (make_sprite S p g nm).children.get? i = some (checkRect S x 7) ∧
      (make_sprite S p g nm).children.get? j = some (pieceUse nm S x 7) := by
  interval_cases x
  · exact ⟨13, 14, by omega, rfl, rfl⟩
  · exact ⟨22, 23, by omega, rfl, rfl⟩
  · exact ⟨31, 32, by omega, rfl, rfl⟩
  · exact ⟨40, 41, by omega, rfl, rfl⟩
  · exact ⟨49, 50, by omega, rfl, rfl⟩
  · exact ⟨58, 59, by omega, rfl, rfl⟩
  · exact ⟨67, 68, by omega, rfl, rfl⟩
  · exact ⟨76, 77, by omega, rfl, rfl⟩

/-- C9 (witness): column 0 of the concrete document has its overlay at an
earlier index than its row-7 glyph reference. -/
theorem overlay_precedes_glyph_witness :
    0 < 8 ∧ ∃ i j, i < j ∧
      (make_sprite 45 demoPieces demoGradient pieceName).children.get? i =
        some (checkRect 45 0 7) ∧
      (make_sprite 45 demoPieces demoGradient pieceName).children.get? j =
        some (pieceUse pieceName 45 0 7) :=
  ⟨by decide, overlay_precedes_glyph_in_document_order 45 demoPieces demoGradient
    pieceName 0 (by decide)⟩

/-- C10: the root has exactly 78 children: the defs node first, then the
five swatches, then for each column its background followed by its row
elements (six glyph references, then the row-7 gradient rectangle, then
the row-7 glyph reference); in total 8 backgrounds, 8 gradient rectangles
and 56 glyph references. -/
theorem root_children_structure (S : Nat) (p : List Xml) (g : Xml)
    (nm : Nat → String) :
    (make_sprite S p g nm).children.length = 78 ∧
    (make_sprite S p g nm).children.get? 0 = some (Xml.elem "defs" [] (p ++ [g])) ∧
    (make_sprite S p g nm).children.drop 1 =
      (List.range 5).map (fun i => swatchRect S i (COLORS.getD (4 + i) "")) ++
        (List.range 8).flatMap (fun x =>
          bgRect S x ::
            ((List.range' 1 6).map (fun y => pieceUse nm S x y) ++
              [checkRect S x 7, pieceUse nm S x 7])) ∧
    (bgRects (make_sprite S p g nm)).length = 8 ∧
    (gradRects (make_sprite S p g nm)).length = 8 ∧
    (useChildren (make_sprite S p g nm)).length = 56 := by
  refine ⟨rfl, rfl, by with_unfolding_all rfl, rfl, rfl, rfl⟩
